import Mathlib

/-!
Shallow embedding of `src/Watering_System_V_5.1.ino` (Arduino plant-watering
controller).

Modelling conventions:

* A `Time` value is represented by its unix-second value as returned by the
  RTC library's `getUnixTime` (a `uint32_t`, seconds since the epoch).  All
  the control logic consumes `Time` only through `getUnixTime`, so this
  abstraction is faithful.
* Digital outputs are a map `Int → Bool` from pin number to driven level
  (`true` = HIGH).  `digitalWrite` on the Arduino Uno drops writes to
  invalid pins (pin `-1` converts to 255, which is `NOT_A_PIN`), so
  `dWrite` ignores negative pins.
* A button or reset reading of `LOW` means "pressed"; in the model a
  reading is the `Bool` "pressed".
* C `int` / `long` fields are modelled as unbounded `Int` (and array
  indices as `Nat`).  Every concrete run used in the theorems below keeps
  all `int`-typed quantities well inside 16-bit range and all `long`-typed
  quantities inside 32-bit range, so the model agrees with the AVR widths
  on those runs.
* The three blocking busy-waits of `loop()` (button-release wait, the
  watering `while`, the error-reset `while`) consume explicit lists of
  sampled inputs; exhausting the list without the exit condition firing
  models "the wait is still spinning", in which case one call of `loop()`
  never completes and the step function returns `none`.
* One call of `loop()` is `loopStep`; besides the post-state it returns
  the list of output-pin snapshots taken after each `digitalWrite`, so
  that instant-level properties (mutual exclusion of pumps, pumps off in
  ERROR) can be stated about every intermediate instant.
-/

namespace Watering

/-- `uint32_t` modulus used by the RTC library's unix-time arithmetic. -/
def UINT32_MOD : Nat := 4294967296

/-- `rtc.getUnixTime`: the library returns the unix time as a `uint32_t`. -/
def getUnixTime (t : Nat) : Nat := t % UINT32_MOD

/-- `#define ERR_WATER_TIME 300` — max watering time in seconds before error. -/
def ERR_WATER_TIME : Int := 300

/-- `#define LCD_CHANGE_TIME 4000` — milliseconds before the LCD switches screens. -/
def LCD_CHANGE_TIME : Int := 4000

/-- `const int numPlants = 3`. -/
def numPlants : Nat := 3

/-- The `Plant` struct of the sketch. -/
structure Plant where
  name : String
  pumpPin : Int
  lightPin : Int
  maxDryTime : Int
  waterTime : Int
  buttonPin : Int
  lastWatered : Nat
  lastWateredFor : Int
  needsWater : Bool
deriving DecidableEq, Repr

/-- Zero-initialised global `Plant currentPlant` before the first loop cycle. -/
def nullPlant : Plant := ⟨"", 0, 0, 0, 0, 0, 0, 0, false⟩

/-- `Plant gBonsai = {"LEFT BONSAI", 6, 4, 7200, 180, 12, nullTime, 0, false}`,
with `lastWatered` replaced in `setup()` by the boot-time reading `t0`. -/
def gBonsai (t0 : Nat) : Plant := ⟨"LEFT BONSAI", 6, 4, 7200, 180, 12, t0, 0, false⟩

/-- `Plant bBonsai = {"RIGHT BONSAI", 7, 3, 4320, 180, 11, nullTime, 0, false}`. -/
def bBonsai (t0 : Nat) : Plant := ⟨"RIGHT BONSAI", 7, 3, 4320, 180, 11, t0, 0, false⟩

/-- `Plant succulent = {"SUCCULENT", -1, 2, 10080, 90, 10, nullTime, 0, false}`. -/
def succulent (t0 : Nat) : Plant := ⟨"SUCCULENT", -1, 2, 10080, 90, 10, t0, 0, false⟩

/-- `const int errorLED = 8`. -/
def errorLED : Int := 8

/-- `const int errorResetButton = 10`. -/
def errorResetButton : Int := 10

/-- `long elapsedTime(Time endTime, Time startTime)`:
`(rtc.getUnixTime(endTime) - rtc.getUnixTime(startTime)) / 1000`.
The subtraction is `uint32_t` arithmetic (wrapping mod `2^32`), the division
is unsigned, and the result (at most `4294967`) fits in `long`. -/
def elapsedTime (endTime startTime : Nat) : Int :=
  Int.ofNat ((getUnixTime endTime + UINT32_MOD - getUnixTime startTime) % UINT32_MOD / 1000)

/-- `digitalWrite(pin, v)` on the output-pin map; writes to invalid
(negative) pins are dropped, as the Arduino core does for `NOT_A_PIN`. -/
def dWrite (o : Int → Bool) (pin : Int) (v : Bool) : Int → Bool :=
  if pin < 0 then o else fun q => if q = pin then v else o q

/-- The global mutable state of the sketch that the control loop reads or
writes: the `plants` array, the mode flags, the two cursors, the recorded
times, the working copy `currentPlant`, and the driven output pins. -/
structure SysState where
  plants : List Plant
  error : Bool
  watering : Bool
  plantCounter : Nat
  currentPlant : Plant
  lcdCounter : Nat
  lcdLastChange : Nat
  waterStartTime : Nat
  outputs : Int → Bool

/-- The external inputs consumed by one call of `loop()`:
`t1` is the `rtc.getTime()` reading at the top of the loop, `buttonPressed`
the `digitalRead(currentPlant.buttonPin) == LOW` sample, `waterStart` the
`rtc.getTime()` reading taken when a watering session starts, `ticks` the
(time, button-pressed) samples of the watering `while` loop, and `resets`
the `digitalRead(errorResetButton) == LOW` samples of the error wait. -/
structure LoopInput where
  t1 : Nat
  buttonPressed : Bool
  waterStart : Nat
  ticks : List (Nat × Bool)
  resets : List Bool

/-- The watering `while (watering)` loop.  Each tick samples the clock and
the plant's button; the first branch (`wateringTime >= waterTime ||`
button pressed) is a normal stop, the second (`wateringTime >=
ERR_WATER_TIME`) a fault stop.  Returns `some (fault, wateringTime,
currentTime)` on exit, `none` if the supplied ticks are exhausted with the
loop still spinning. -/
def wateringLoop (p : Plant) (startT : Nat) : List (Nat × Bool) → Option (Bool × Int × Nat)
  | [] => none
  | (t, btn) :: rest =>
    if elapsedTime t startT ≥ p.waterTime ∨ btn = true then
      some (false, elapsedTime t startT, t)
    else if elapsedTime t startT ≥ ERR_WATER_TIME then
      some (true, elapsedTime t startT, t)
    else wateringLoop p startT rest

/-- The `while (error)` reset wait: spins until a reset-button sample reads
pressed.  `some ()` means the wait exited (error cleared), `none` that the
supplied samples ran out with the system still latched in ERROR. -/
def errorWait : List Bool → Option Unit
  | [] => none
  | r :: rest => if r then some () else errorWait rest

/-- Output snapshots of the error handler's `for` loop that turns every
pump off (`digitalWrite(plants[i].pumpPin, LOW)` for each `i`), one
snapshot per write. -/
def pumpsOffTrace : List Plant → (Int → Bool) → List (Int → Bool)
  | [], _ => []
  | p :: rest, o =>
    let o2 := dWrite o p.pumpPin false
    o2 :: pumpsOffTrace rest o2

/-- Final output map of the same `for` loop. -/
def pumpsOffFinal (ps : List Plant) (o : Int → Bool) : Int → Bool :=
  ps.foldl (fun acc p => dWrite acc p.pumpPin false) o

/-- The LCD-rotation block: if `elapsedTime(currentTime, lcdLastChange) >=
LCD_CHANGE_TIME` then `lcdCounter++`, wrapping to 0 only when the
incremented counter is exactly `numPlants`.  Note that the sketch never
writes `lcdLastChange` here. -/
def lcdStep (curTime lcdLastChange : Nat) (lcdCounter : Nat) : Nat :=
  if elapsedTime curTime lcdLastChange ≥ LCD_CHANGE_TIME then
    let c := lcdCounter + 1
    if c = numPlants then 0 else c
  else lcdCounter

/-- The tail of `loop()` shared by both branches: the error handler
(lines 212–240) followed by the LCD block (lines 242–250).  `curTime` is
the value of the global `currentTime` at that point, `tr` the output
snapshots accumulated so far. -/
def finishStep (s : SysState) (curTime : Nat) (tr : List (Int → Bool)) (resets : List Bool) :
    List (Int → Bool) × Option SysState :=
  if s.error then
    let oe := dWrite s.outputs errorLED true
    let offTr := pumpsOffTrace s.plants oe
    let oFin := pumpsOffFinal s.plants oe
    match errorWait resets with
    | none => (tr ++ oe :: offTr, none)
    | some _ =>
      (tr ++ oe :: offTr,
        some { s with error := false, outputs := oFin,
                      lcdCounter := lcdStep curTime s.lcdLastChange s.lcdCounter })
  else
    (tr, some { s with lcdCounter := lcdStep curTime s.lcdLastChange s.lcdCounter })

/-- `currentPlant = plants[plantCounter]` — note this is a by-value struct
copy of the registry entry. -/
def scannedPlant (s : SysState) : Plant := s.plants.getD s.plantCounter nullPlant

/-- The scanned plant after the dryness evaluation
`currentPlant.needsWater = (elapsedTime(currentTime, currentPlant.lastWatered)
>= currentPlant.maxDryTime)`. -/
def scannedNeeds (s : SysState) (t1 : Nat) : Plant :=
  let cp0 := scannedPlant s
  { cp0 with needsWater := decide (elapsedTime t1 cp0.lastWatered ≥ cp0.maxDryTime) }

/-- The watering `while` loop of this cycle, run on the working copy. -/
def sessionResult (s : SysState) (inp : LoopInput) : Option (Bool × Int × Nat) :=
  wateringLoop (scannedNeeds s inp.t1) inp.waterStart inp.ticks

/-- One call of `loop()`.  Returns the list of output-pin snapshots (one
after each `digitalWrite`, in program order) and the post-state, or `none`
for the post-state when a busy-wait never exits on the supplied inputs.

Faithful to the source order: scan + dryness light write; button check
(the CONFIRMING release wait changes no state); the watering block with
pump on, the `while` loop, pump off and the working-copy update (lines
196–202, run on both normal and fault exits); otherwise the scanner
advance; then the error handler; then the LCD block.  The registry
`plants` is never written back — `currentPlant` is a copy. -/
def loopStep (s : SysState) (inp : LoopInput) : List (Int → Bool) × Option SysState :=
  let cp1 := scannedNeeds s inp.t1
  let o1 := dWrite s.outputs cp1.lightPin cp1.needsWater
  if s.watering || inp.buttonPressed then
    let o2 := dWrite o1 cp1.pumpPin true
    match sessionResult s inp with
    | none => ([o1, o2], none)
    | some (fault, wtime, lastT) =>
      let o3 := dWrite o2 cp1.pumpPin false
      let cp2 := { cp1 with lastWatered := inp.waterStart, lastWateredFor := wtime }
      finishStep { s with currentPlant := cp2, watering := false,
                          error := s.error || fault,
                          waterStartTime := inp.waterStart,
                          outputs := o3 } lastT [o1, o2, o3] inp.resets
  else
    let pc := if s.plantCounter + 1 ≥ numPlants then 0 else s.plantCounter + 1
    finishStep { s with currentPlant := cp1, plantCounter := pc, outputs := o1 }
      inp.t1 [o1] inp.resets

/-- All output pins after hardware reset / `setup()` (every used pin LOW;
`errorLED` is explicitly written LOW). -/
def initOutputs : Int → Bool := fun _ => false

/-- The state after `setup()`: `lcdLastChange` and every plant's
`lastWatered` get fresh clock readings; `lcdCounter` starts at
`numPlants`; flags cleared; `plantCounter` zero. -/
def initialState (tLcd ta tb tc : Nat) : SysState :=
  { plants := [gBonsai ta, bBonsai tb, succulent tc]
    error := false
    watering := false
    plantCounter := 0
    currentPlant := nullPlant
    lcdCounter := numPlants
    lcdLastChange := tLcd
    waterStartTime := 0
    outputs := initOutputs }

/-- States reachable by the control loop from some boot state. -/
inductive Reachable : SysState → Prop
  | init (tLcd ta tb tc : Nat) : Reachable (initialState tLcd ta tb tc)
  | step {s : SysState} (inp : LoopInput) {s2 : SysState} :
      Reachable s → (loopStep s inp).2 = some s2 → Reachable s2

/-- Number of plants whose (valid) pump pin currently reads HIGH. -/
def pumpsOnCount (P : List Plant) (o : Int → Bool) : Nat :=
  (P.filter (fun p => decide (0 ≤ p.pumpPin) && o p.pumpPin)).length

/-- Invariant of the control loop at cycle boundaries: the registry keeps
the hard-coded pump and light pins (the sketch never writes the `plants`
array after `setup()`), the scan cursor is in range, no session or error
is pending across a cycle boundary, and both pump pins read LOW. -/
structure LoopInv (s : SysState) : Prop where
  pumpPins : s.plants.map Plant.pumpPin = [6, 7, -1]
  lightPins : s.plants.map Plant.lightPin = [4, 3, 2]
  pcLt : s.plantCounter < numPlants
  errFalse : s.error = false
  watFalse : s.watering = false
  out6 : s.outputs 6 = false
  out7 : s.outputs 7 = false

/-- Output map after the dryness-indicator write of the scan
(`digitalWrite(currentPlant.lightPin, currentPlant.needsWater)`). -/
def scanOut (s : SysState) (t1 : Nat) : Int → Bool :=
  dWrite s.outputs (scannedNeeds s t1).lightPin (scannedNeeds s t1).needsWater

/-- Output map after `digitalWrite(currentPlant.pumpPin, HIGH)`. -/
def pumpOn (s : SysState) (t1 : Nat) : Int → Bool :=
  dWrite (scanOut s t1) (scannedNeeds s t1).pumpPin true

/-- Output map after the post-session `digitalWrite(currentPlant.pumpPin, LOW)`. -/
def pumpOff (s : SysState) (t1 : Nat) : Int → Bool :=
  dWrite (pumpOn s t1) (scannedNeeds s t1).pumpPin false

/-- Output map after the error handler's `digitalWrite(errorLED, HIGH)`. -/
def errOut (s : SysState) : Int → Bool := dWrite s.outputs errorLED true

/-- A plant like the left bonsai but with a watering target above the
safety ceiling, so that a session for it can reach the ceiling before the
target: used to exercise the fault-stop branch on concrete inputs. -/
def longPlant : Plant := { gBonsai 0 with waterTime := 400 }

/-- A boot state whose first registry slot holds `longPlant`. -/
def faultState : SysState :=
  { initialState 0 0 0 0 with plants := [longPlant, bBonsai 0, succulent 0] }

/-- Inputs producing a fault stop: button pressed, session starts at unix
0, single watering tick at unix 300000 (measured elapsed 300) with the
button released, no reset press supplied. -/
def faultInput : LoopInput := ⟨0, true, 0, [(300000, false)], []⟩

/-- Same fault session, but with a reset press supplied to the error wait. -/
def faultInput2 : LoopInput := { faultInput with resets := [true] }

/-! ### Helper lemmas -/

theorem errorWait_eq_none {rs : List Bool} (h : ∀ r ∈ rs, r = false) :
    errorWait rs = none := by
  induction rs with
  | nil => rfl
  | cons r rest ih =>
    have hr : r = false := h r (List.mem_cons_self r rest)
    rw [errorWait, hr]
    simpa using ih (fun x hx => h x (List.mem_cons_of_mem r hx))

theorem errorWait_press {post : List Bool} :
    ∀ {pre : List Bool}, (∀ r ∈ pre, r = false) →
      errorWait (pre ++ true :: post) = some () := by
  intro pre
  induction pre with
  | nil => intro _; rfl
  | cons r rest ih =>
    intro h
    have hr : r = false := h r (List.mem_cons_self r rest)
    rw [List.cons_append, errorWait, hr]
    simpa using ih (fun x hx => h x (List.mem_cons_of_mem r hx))

theorem dWrite_neg {pin : Int} (h : pin < 0) (o : Int → Bool) (v : Bool) :
    dWrite o pin v = o := by
  simp [dWrite, h]

theorem dWrite_ne {pin q : Int} (h : q ≠ pin) (o : Int → Bool) (v : Bool) :
    dWrite o pin v q = o q := by
  unfold dWrite
  split
  · rfl
  · simp [h]

theorem dWrite_self {pin : Int} (h : 0 ≤ pin) (o : Int → Bool) (v : Bool) :
    dWrite o pin v pin = v := by
  unfold dWrite
  rw [if_neg (by omega)]
  simp

theorem plants_shape {P : List Plant} (h : P.map Plant.pumpPin = [6, 7, -1]) :
    ∃ a b c, P = [a, b, c] := by
  rcases P with _ | ⟨a, P⟩
  · exact absurd h (by simp)
  rcases P with _ | ⟨b, P⟩
  · exact absurd h (by simp)
  rcases P with _ | ⟨c, P⟩
  · exact absurd h (by simp)
  rcases P with _ | ⟨d, P⟩
  · exact ⟨a, b, c, rfl⟩
  · exact absurd h (by simp)

theorem scanned_pumpPin {s : SysState} (hInv : LoopInv s) (t1 : Nat) :
    (scannedNeeds s t1).pumpPin = 6 ∨ (scannedNeeds s t1).pumpPin = 7 ∨
      (scannedNeeds s t1).pumpPin = -1 := by
  obtain ⟨a, b, c, hP⟩ := plants_shape hInv.pumpPins
  have hp := hInv.pumpPins
  rw [hP] at hp
  simp only [List.map_cons, List.map_nil, List.cons.injEq, and_true] at hp
  have hpc := hInv.pcLt
  unfold numPlants at hpc
  unfold scannedNeeds scannedPlant
  rw [hP]
  have h3 : s.plantCounter = 0 ∨ s.plantCounter = 1 ∨ s.plantCounter = 2 := by omega
  rcases h3 with h0 | h1 | h2
  · rw [h0]; exact Or.inl hp.1
  · rw [h1]; exact Or.inr (Or.inl hp.2.1)
  · rw [h2]; exact Or.inr (Or.inr hp.2.2)

theorem scanned_lightPin {s : SysState} (hInv : LoopInv s) (t1 : Nat) :
    (scannedNeeds s t1).lightPin = 4 ∨ (scannedNeeds s t1).lightPin = 3 ∨
      (scannedNeeds s t1).lightPin = 2 := by
  obtain ⟨a, b, c, hP⟩ := plants_shape hInv.pumpPins
  have hl := hInv.lightPins
  rw [hP] at hl
  simp only [List.map_cons, List.map_nil, List.cons.injEq, and_true] at hl
  have hpc := hInv.pcLt
  unfold numPlants at hpc
  unfold scannedNeeds scannedPlant
  rw [hP]
  have h3 : s.plantCounter = 0 ∨ s.plantCounter = 1 ∨ s.plantCounter = 2 := by omega
  rcases h3 with h0 | h1 | h2
  · rw [h0]; exact Or.inl hl.1
  · rw [h1]; exact Or.inr (Or.inl hl.2.1)
  · rw [h2]; exact Or.inr (Or.inr hl.2.2)

theorem wateringLoop_skip {p : Plant} {startT : Nat} {rest : List (Nat × Bool)} :
    ∀ {pre : List (Nat × Bool)},
      (∀ tb ∈ pre, elapsedTime tb.1 startT < p.waterTime ∧ tb.2 = false ∧
        elapsedTime tb.1 startT < ERR_WATER_TIME) →
      wateringLoop p startT (pre ++ rest) = wateringLoop p startT rest := by
  intro pre
  induction pre with
  | nil => intro _; rfl
  | cons tb pre ih =>
    intro h
    obtain ⟨t, btn⟩ := tb
    obtain ⟨h1, h2, h3⟩ := h (t, btn) (List.mem_cons_self _ pre)
    rw [List.cons_append, wateringLoop,
      if_neg (by simp only [not_or, Bool.not_eq_true]; exact ⟨not_le.mpr h1, h2⟩),
      if_neg (not_le.mpr h3)]
    exact ih (fun x hx => h x (List.mem_cons_of_mem _ hx))

theorem wateringLoop_fault_at {p : Plant} {startT t : Nat} {rest : List (Nat × Bool)}
    (h1 : elapsedTime t startT < p.waterTime)
    (h2 : ERR_WATER_TIME ≤ elapsedTime t startT) :
    wateringLoop p startT ((t, false) :: rest) =
      some (true, elapsedTime t startT, t) := by
  rw [wateringLoop,
    if_neg (by simp only [not_or]; exact ⟨not_le.mpr h1, by simp⟩),
    if_pos h2]

theorem pumpsOffTrace_off {a b c : Plant} (ha : a.pumpPin = 6) (hb : b.pumpPin = 7)
    (hc : c.pumpPin = -1) {o : Int → Bool} (h6 : o 6 = false) (h7 : o 7 = false) :
    ∀ x ∈ pumpsOffTrace [a, b, c] o, x 6 = false ∧ x 7 = false := by
  intro x hx
  simp only [pumpsOffTrace, ha, hb, hc, List.mem_cons, List.not_mem_nil, or_false] at hx
  have e1 : dWrite o 6 false 6 = false := dWrite_self (by norm_num) o false
  have e1b : dWrite o 6 false 7 = o 7 := dWrite_ne (by norm_num) o false
  have e2 : dWrite (dWrite o 6 false) 7 false 6 = dWrite o 6 false 6 :=
    dWrite_ne (by norm_num) _ false
  have e2b : dWrite (dWrite o 6 false) 7 false 7 = false :=
    dWrite_self (by norm_num) _ false
  have e3 : dWrite (dWrite (dWrite o 6 false) 7 false) (-1) false =
      dWrite (dWrite o 6 false) 7 false := dWrite_neg (by norm_num) _ false
  rcases hx with rfl | rfl | rfl
  · exact ⟨e1, by rw [e1b, h7]⟩
  · exact ⟨by rw [e2, e1], e2b⟩
  · rw [e3]
    exact ⟨by rw [e2, e1], e2b⟩

theorem pumpsOffFinal_off {a b c : Plant} (ha : a.pumpPin = 6) (hb : b.pumpPin = 7)
    (hc : c.pumpPin = -1) (o : Int → Bool) :
    pumpsOffFinal [a, b, c] o 6 = false ∧ pumpsOffFinal [a, b, c] o 7 = false := by
  simp only [pumpsOffFinal, List.foldl_cons, List.foldl_nil, ha, hb, hc]
  have e3 : dWrite (dWrite (dWrite o 6 false) 7 false) (-1) false =
      dWrite (dWrite o 6 false) 7 false := dWrite_neg (by norm_num) _ false
  rw [e3]
  constructor
  · rw [dWrite_ne (by norm_num) _ false, dWrite_self (by norm_num) o false]
  · exact dWrite_self (by norm_num) _ false

theorem loopStep_idle_eq (s : SysState) (inp : LoopInput) (hw : s.watering = false)
    (hbtn : inp.buttonPressed = false) :
    loopStep s inp = finishStep
      { s with currentPlant := scannedNeeds s inp.t1,
               plantCounter := if s.plantCounter + 1 ≥ numPlants then 0
                               else s.plantCounter + 1,
               outputs := scanOut s inp.t1 }
      inp.t1 [scanOut s inp.t1] inp.resets := by
  unfold loopStep scanOut
  rw [hw, hbtn]
  rfl

theorem loopStep_stuck_eq (s : SysState) (inp : LoopInput)
    (hcond : (s.watering || inp.buttonPressed) = true)
    (hsr : sessionResult s inp = none) :
    loopStep s inp = ([scanOut s inp.t1, pumpOn s inp.t1], none) := by
  unfold loopStep scanOut pumpOn
  rw [hcond, hsr]
  rfl

theorem loopStep_session_eq (s : SysState) (inp : LoopInput) (fault : Bool)
    (w : Int) (lastT : Nat)
    (hcond : (s.watering || inp.buttonPressed) = true)
    (hsr : sessionResult s inp = some (fault, w, lastT)) :
    loopStep s inp = finishStep
      { s with currentPlant := { scannedNeeds s inp.t1 with
                                 lastWatered := inp.waterStart, lastWateredFor := w },
               watering := false, error := s.error || fault,
               waterStartTime := inp.waterStart, outputs := pumpOff s inp.t1 }
      lastT [scanOut s inp.t1, pumpOn s inp.t1, pumpOff s inp.t1] inp.resets := by
  unfold loopStep scanOut pumpOn pumpOff
  rw [hcond, hsr]
  rfl

theorem finishStep_noErr_eq (s : SysState) (curT : Nat) (tr : List (Int → Bool))
    (resets : List Bool) (he : s.error = false) :
    finishStep s curT tr resets =
      (tr, some { s with lcdCounter := lcdStep curT s.lcdLastChange s.lcdCounter }) := by
  unfold finishStep
  rw [he]
  simp

theorem finishStep_err_none_eq (s : SysState) (curT : Nat) (tr : List (Int → Bool))
    (resets : List Bool) (he : s.error = true) (hew : errorWait resets = none) :
    finishStep s curT tr resets =
      (tr ++ errOut s :: pumpsOffTrace s.plants (errOut s), none) := by
  unfold finishStep errOut
  rw [he, hew]
  rfl

theorem finishStep_err_some_eq (s : SysState) (curT : Nat) (tr : List (Int → Bool))
    (resets : List Bool) (he : s.error = true) (hew : errorWait resets = some ()) :
    finishStep s curT tr resets =
      (tr ++ errOut s :: pumpsOffTrace s.plants (errOut s),
       some { s with error := false, outputs := pumpsOffFinal s.plants (errOut s),
                     lcdCounter := lcdStep curT s.lcdLastChange s.lcdCounter }) := by
  unfold finishStep errOut
  rw [he, hew]
  rfl

theorem pumpsOnCount_le_one {a b c : Plant} (ha : a.pumpPin = 6) (hb : b.pumpPin = 7)
    (hc : c.pumpPin = -1) {o : Int → Bool} (h : o 6 = false ∨ o 7 = false) :
    pumpsOnCount [a, b, c] o ≤ 1 := by
  unfold pumpsOnCount
  cases h6 : o 6 <;> cases h7 : o 7 <;>
    simp [List.filter, ha, hb, hc, h6, h7]
  rcases h with h | h
  · rw [h6] at h; exact absurd h (by simp)
  · rw [h7] at h; exact absurd h (by simp)

theorem scanOut_off {s : SysState} (hInv : LoopInv s) (t1 : Nat) :
    scanOut s t1 6 = false ∧ scanOut s t1 7 = false := by
  unfold scanOut
  constructor
  · rcases scanned_lightPin hInv t1 with h | h | h <;>
      rw [h, dWrite_ne (by norm_num), hInv.out6]
  · rcases scanned_lightPin hInv t1 with h | h | h <;>
      rw [h, dWrite_ne (by norm_num), hInv.out7]

theorem pumpOn_safe {s : SysState} (hInv : LoopInv s) (t1 : Nat) :
    pumpOn s t1 6 = false ∨ pumpOn s t1 7 = false := by
  unfold pumpOn
  rcases scanned_pumpPin hInv t1 with h | h | h
  · right
    rw [h, dWrite_ne (by norm_num)]
    exact (scanOut_off hInv t1).2
  · left
    rw [h, dWrite_ne (by norm_num)]
    exact (scanOut_off hInv t1).1
  · left
    rw [h, dWrite_neg (by norm_num)]
    exact (scanOut_off hInv t1).1

theorem pumpOff_off {s : SysState} (hInv : LoopInv s) (t1 : Nat) :
    pumpOff s t1 6 = false ∧ pumpOff s t1 7 = false := by
  unfold pumpOff pumpOn
  rcases scanned_pumpPin hInv t1 with h | h | h
  · rw [h]
    refine ⟨dWrite_self (by norm_num) _ false, ?_⟩
    rw [dWrite_ne (by norm_num), dWrite_ne (by norm_num)]
    exact (scanOut_off hInv t1).2
  · rw [h]
    refine ⟨?_, dWrite_self (by norm_num) _ false⟩
    rw [dWrite_ne (by norm_num), dWrite_ne (by norm_num)]
    exact (scanOut_off hInv t1).1
  · rw [h, dWrite_neg (by norm_num), dWrite_neg (by norm_num)]
    exact scanOut_off hInv t1

theorem pcWrap_lt (pc : Nat) : (if pc + 1 ≥ numPlants then 0 else pc + 1) < numPlants := by
  unfold numPlants
  split
  · omega
  · omega

/-- The core invariant-preservation and instant-level safety lemma: from
any cycle-boundary state satisfying `LoopInv`, every output snapshot of
one `loop()` call has at most one pump pin HIGH, and if the call
completes, the post-state satisfies `LoopInv` again. -/
theorem loopStep_preserves (s : SysState) (inp : LoopInput) (hInv : LoopInv s) :
    (∀ o ∈ (loopStep s inp).1, o 6 = false ∨ o 7 = false) ∧
    (∀ s2, (loopStep s inp).2 = some s2 → LoopInv s2) := by
  obtain ⟨a, b, c, hP⟩ := plants_shape hInv.pumpPins
  have hpins := hInv.pumpPins
  rw [hP] at hpins
  simp only [List.map_cons, List.map_nil, List.cons.injEq, and_true] at hpins
  obtain ⟨ha, hb, hc⟩ := hpins
  have h1 := scanOut_off hInv inp.t1
  have h2 := pumpOn_safe hInv inp.t1
  have h3 := pumpOff_off hInv inp.t1
  cases hbtn : inp.buttonPressed
  · -- idle cycle: dryness scan, cursor advance, no error handling
    have he3 : ({ s with
                  currentPlant := scannedNeeds s inp.t1,
                  plantCounter := (if s.plantCounter + 1 ≥ numPlants then 0
                                   else s.plantCounter + 1),
                  outputs := scanOut s inp.t1 } : SysState).error = false := hInv.errFalse
    rw [loopStep_idle_eq s inp hInv.watFalse hbtn,
      finishStep_noErr_eq _ _ _ _ he3]
    constructor
    · intro o ho
      simp only [List.mem_cons, List.not_mem_nil, or_false] at ho
      subst ho
      exact Or.inl h1.1
    · intro s2 hs2
      simp only [Option.some.injEq] at hs2
      subst hs2
      exact ⟨hInv.pumpPins, hInv.lightPins, pcWrap_lt s.plantCounter,
        hInv.errFalse, hInv.watFalse, h1.1, h1.2⟩
  · -- a watering session runs this cycle
    have hcond : (s.watering || inp.buttonPressed) = true := by
      rw [hInv.watFalse, hbtn]
      rfl
    rcases hsr : sessionResult s inp with _ | ⟨fault, w, lastT⟩
    · -- inputs exhausted inside the watering loop: pump still on, cycle stuck
      rw [loopStep_stuck_eq s inp hcond hsr]
      refine ⟨?_, by intro s2 h; simp at h⟩
      intro o ho
      simp only [List.mem_cons, List.not_mem_nil, or_false] at ho
      rcases ho with rfl | rfl
      · exact Or.inl h1.1
      · exact h2
    · rw [loopStep_session_eq s inp fault w lastT hcond hsr]
      cases hf : fault
      · -- normal stop: no error handling afterwards
        have he3 : ({ s with
            currentPlant := { scannedNeeds s inp.t1 with
              lastWatered := inp.waterStart, lastWateredFor := w },
            watering := false, error := s.error || false,
            waterStartTime := inp.waterStart,
            outputs := pumpOff s inp.t1 } : SysState).error = false := by
          simp [hInv.errFalse]
        rw [finishStep_noErr_eq _ _ _ _ he3]
        constructor
        · intro o ho
          simp only [List.mem_cons, List.not_mem_nil, or_false] at ho
          rcases ho with rfl | rfl | rfl
          · exact Or.inl h1.1
          · exact h2
          · exact Or.inl h3.1
        · intro s2 hs2
          simp only [Option.some.injEq] at hs2
          subst hs2
          exact ⟨hInv.pumpPins, hInv.lightPins, hInv.pcLt,
            by simp [hInv.errFalse], rfl, h3.1, h3.2⟩
      · -- fault stop: error handler runs
        have herr2 : ({ s with
            currentPlant := { scannedNeeds s inp.t1 with
              lastWatered := inp.waterStart, lastWateredFor := w },
            watering := false, error := s.error || true,
            waterStartTime := inp.waterStart,
            outputs := pumpOff s inp.t1 } : SysState).error = true := by
          simp
        have hoe6 : errOut { s with
            currentPlant := { scannedNeeds s inp.t1 with
              lastWatered := inp.waterStart, lastWateredFor := w },
            watering := false, error := s.error || true,
            waterStartTime := inp.waterStart,
            outputs := pumpOff s inp.t1 } 6 = false := by
          unfold errOut errorLED
          rw [dWrite_ne (by norm_num)]
          exact h3.1
        have hoe7 : errOut { s with
            currentPlant := { scannedNeeds s inp.t1 with
              lastWatered := inp.waterStart, lastWateredFor := w },
            watering := false, error := s.error || true,
            waterStartTime := inp.waterStart,
            outputs := pumpOff s inp.t1 } 7 = false := by
          unfold errOut errorLED
          rw [dWrite_ne (by norm_num)]
          exact h3.2
        rcases hew : errorWait inp.resets with _ | ⟨⟩
        · rw [finishStep_err_none_eq _ _ _ _ herr2 hew]
          refine ⟨?_, by intro s2 h; simp at h⟩
          intro o ho
          rw [List.mem_append] at ho
          rcases ho with ho | ho
          · simp only [List.mem_cons, List.not_mem_nil, or_false] at ho
            rcases ho with rfl | rfl | rfl
            · exact Or.inl h1.1
            · exact h2
            · exact Or.inl h3.1
          · simp only [List.mem_cons] at ho
            rcases ho with rfl | ho
            · exact Or.inl hoe6
            · have := pumpsOffTrace_off ha hb hc hoe6 hoe7 o (by rw [← hP]; exact ho)
              exact Or.inl this.1
        · rw [finishStep_err_some_eq _ _ _ _ herr2 hew]
          constructor
          · intro o ho
            rw [List.mem_append] at ho
            rcases ho with ho | ho
            · simp only [List.mem_cons, List.not_mem_nil, or_false] at ho
              rcases ho with rfl | rfl | rfl
              · exact Or.inl h1.1
              · exact h2
              · exact Or.inl h3.1
            · simp only [List.mem_cons] at ho
              rcases ho with rfl | ho
              · exact Or.inl hoe6
              · have := pumpsOffTrace_off ha hb hc hoe6 hoe7 o (by rw [← hP]; exact ho)
                exact Or.inl this.1
          · intro s2 hs2
            simp only [Option.some.injEq] at hs2
            subst hs2
            have hfin := pumpsOffFinal_off ha hb hc (errOut { s with
              currentPlant := { scannedNeeds s inp.t1 with
                lastWatered := inp.waterStart, lastWateredFor := w },
              watering := false, error := s.error || true,
              waterStartTime := inp.waterStart,
              outputs := pumpOff s inp.t1 })
            refine ⟨hInv.pumpPins, hInv.lightPins, hInv.pcLt, rfl, rfl, ?_, ?_⟩
            · show pumpsOffFinal s.plants _ 6 = false
              rw [hP]
              exact hfin.1
            · show pumpsOffFinal s.plants _ 7 = false
              rw [hP]
              exact hfin.2

/-- Every reachable cycle-boundary state satisfies the loop invariant. -/
theorem reachable_loopInv {s : SysState} (h : Reachable s) : LoopInv s := by
  induction h with
  | init tLcd ta tb tc =>
    exact ⟨rfl, rfl, by norm_num [initialState, numPlants], rfl, rfl, rfl, rfl⟩
  | step inp hs hstep ih =>
    exact (loopStep_preserves _ inp ih).2 _ hstep

/-! ### Claim theorems -/

/-- C7: the claim says `elapsed_seconds(a, b)` returns the number of seconds
between the two timestamps, non-negative, clamped at zero when `a` precedes
`b`.  The code divides the unix-second difference by 1000 (2000 seconds
apart gives 2, contradicting the function's own doc comment), and a
backwards pair wraps around `2^32` instead of clamping (one second
backwards gives 4294967, not 0).  Only non-negativity holds. -/
theorem C7_elapsedTime_behaviour :
    elapsedTime 2000 0 = 2 ∧ elapsedTime 0 1 = 4294967 ∧
    ∀ e s : Nat, 0 ≤ elapsedTime e s :=
  ⟨by decide, by decide, fun e s => Int.ofNat_nonneg _⟩

/-- C3: a session for plant 0 (booted with `lastWatered = 5`) starts at
unix time 100000 and is stopped early by a button press at measured
elapsed 50.  The pump (pin 6) is off afterwards and the working copy
`currentPlant` receives `lastWatered = 100000`, `lastWateredFor = 50`,
but the Plant Registry entry `plants[0]` is unchanged (`5`, `0`): the
session writes a by-value struct copy that is never stored back, so the
claimed registry update never happens. -/
theorem C3_normal_stop_registry_not_updated :
    ((loopStep (initialState 0 5 0 0) ⟨100000, true, 100000, [(150000, true)], []⟩).2.map
      (fun s => ((s.plants.getD 0 nullPlant).lastWatered,
                 (s.plants.getD 0 nullPlant).lastWateredFor,
                 s.currentPlant.lastWatered, s.currentPlant.lastWateredFor,
                 s.outputs 6))) = some (5, 0, 100000, 50, false) := by decide

/-- C4: plant 0 is scanned at a time where the dryness predicate
`elapsedTime(now, lastWatered) >= maxDryTime` holds (7200 ≥ 7200).  The
indicator light (pin 4) is lit and the working copy's `needsWater` is
true, but the registry's `needs_water` field of plant 0 stays `false`:
the scan writes the by-value copy `currentPlant`, never the registry. -/
theorem C4_scan_updates_copy_not_registry :
    (elapsedTime 7200000 0 ≥ (7200 : Int)) ∧
    ((loopStep (initialState 0 0 0 0) ⟨7200000, false, 0, [], []⟩).2.map
      (fun s => ((s.plants.getD 0 nullPlant).needsWater,
                 s.currentPlant.needsWater, s.outputs 4))) =
      some (false, true, true) := by decide

/-- C8: after boot at unix 0, two consecutive idle cycles whose clock
readings both make `elapsedTime(currentTime, lcdLastChange) >=
LCD_CHANGE_TIME` each advance the display cursor (3 → 4 → 5) while
`lcdLastChange` is never written (stays 0): the code advances every cycle
once the threshold is passed instead of exactly once per dwell window,
and never resets the driver's timestamp. -/
theorem C8_lcd_advances_every_cycle_no_reset :
    ((loopStep (initialState 0 0 0 0) ⟨4000000, false, 0, [], []⟩).2.map
      (fun s => (s.lcdCounter, s.lcdLastChange))) = some (4, 0) ∧
    (((loopStep (initialState 0 0 0 0) ⟨4000000, false, 0, [], []⟩).2.bind
      (fun s => (loopStep s ⟨4001000, false, 0, [], []⟩).2)).map
      (fun s => (s.lcdCounter, s.lcdLastChange))) = some (5, 0) := by decide

/-- C10: the display cursor starts at `lcdCounter = numPlants` (= 3), and
on the very first loop cycle (dwell not yet expired, so the counter is
not even incremented) the render reads `plants[lcdCounter]` = `plants[3]`,
one past the end of the 3-element registry: the claimed bound
`lcdCounter < numPlants` fails in a reachable (indeed the initial)
state. -/
theorem C10_first_render_reads_out_of_bounds :
    (initialState 0 0 0 0).lcdCounter = numPlants ∧
    ((loopStep (initialState 0 0 0 0) ⟨1, false, 0, [], []⟩).2.map
      (fun s => (s.lcdCounter, (s.plants[s.lcdCounter]?).isNone))) =
      some (3, true) := by decide

/-- C9: in any cycle where no watering session is active and the scanned
plant's demand button is not pressed (and the system is not in ERROR),
the scanner cursor advances by exactly one position, wrapping to 0 past
the last index: the new cursor is `(plantCounter + 1) % numPlants`. -/
theorem C9_scanner_round_robin (s : SysState) (inp : LoopInput)
    (herr : s.error = false) (hw : s.watering = false)
    (hbtn : inp.buttonPressed = false) (hpc : s.plantCounter < numPlants) :
    ((loopStep s inp).2.map (fun s2 => s2.plantCounter)) =
      some ((s.plantCounter + 1) % numPlants) := by
  have harith : (if s.plantCounter + 1 ≥ numPlants then 0 else s.plantCounter + 1) =
      (s.plantCounter + 1) % numPlants := by
    unfold numPlants at hpc ⊢
    rcases Nat.lt_or_ge (s.plantCounter + 1) 3 with h | h
    · rw [if_neg (by omega), Nat.mod_eq_of_lt h]
    · rw [if_pos h]; omega
  simp [loopStep, finishStep, hw, hbtn, herr, harith]

/-- C9 witness: from the boot state an idle cycle moves the cursor from 0
to `1 = (0 + 1) % numPlants`. -/
theorem C9_scanner_round_robin_witness :
    ((loopStep (initialState 0 0 0 0) ⟨1, false, 0, [], []⟩).2.map
      (fun s2 => s2.plantCounter)) = some ((0 + 1) % numPlants) :=
  C9_scanner_round_robin _ _ rfl rfl rfl (by decide)

/-- C2: at most one pump actuator is driven on at any instant.  For every
reachable state of the control loop and every cycle input (so every
interleaving of button presses), the number of registry plants whose pump
pin reads HIGH is at most one in the cycle-boundary state and after every
single `digitalWrite` performed during the next cycle. -/
theorem C2_at_most_one_pump (s : SysState) (hs : Reachable s) (inp : LoopInput) :
    pumpsOnCount s.plants s.outputs ≤ 1 ∧
    ∀ o ∈ (loopStep s inp).1, pumpsOnCount s.plants o ≤ 1 := by
  have hInv := reachable_loopInv hs
  obtain ⟨a, b, c, hP⟩ := plants_shape hInv.pumpPins
  have hpins := hInv.pumpPins
  rw [hP] at hpins
  simp only [List.map_cons, List.map_nil, List.cons.injEq, and_true] at hpins
  obtain ⟨ha, hb, hc⟩ := hpins
  constructor
  · rw [hP]
    exact pumpsOnCount_le_one ha hb hc (Or.inl hInv.out6)
  · intro o ho
    rw [hP]
    exact pumpsOnCount_le_one ha hb hc ((loopStep_preserves s inp hInv).1 o ho)

/-- C2 witness: the invariant evaluated at the boot state. -/
theorem C2_at_most_one_pump_witness :
    pumpsOnCount (initialState 0 0 0 0).plants (initialState 0 0 0 0).outputs ≤ 1 :=
  (C2_at_most_one_pump _ (Reachable.init 0 0 0 0) ⟨1, true, 1, [(200000, true)], []⟩).1

/-- C1: if a session's measured elapsed time reaches the 300-second safety
ceiling at a tick where neither normal-stop condition holds (target not
reached, button not pressed) and no earlier tick stopped the session, the
watering loop exits through the fault branch, the controller latches in
ERROR (the cycle never completes while no reset press is supplied), and
from the pump-off write onward — in particular throughout the ERROR
handler — every output snapshot has both pump pins (6 and 7) LOW. -/
theorem C1_ceiling_fault_enters_error
    (s : SysState) (inp : LoopInput) (pre rest : List (Nat × Bool)) (t : Nat)
    (hInv : LoopInv s)
    (hbtn : inp.buttonPressed = true)
    (hticks : inp.ticks = pre ++ (t, false) :: rest)
    (hpre : ∀ tb ∈ pre, elapsedTime tb.1 inp.waterStart < (scannedPlant s).waterTime ∧
      tb.2 = false ∧ elapsedTime tb.1 inp.waterStart < ERR_WATER_TIME)
    (hceil : ERR_WATER_TIME ≤ elapsedTime t inp.waterStart)
    (htgt : elapsedTime t inp.waterStart < (scannedPlant s).waterTime)
    (hnores : ∀ r ∈ inp.resets, r = false) :
    sessionResult s inp = some (true, elapsedTime t inp.waterStart, t) ∧
    (loopStep s inp).2 = none ∧
    ∀ o ∈ (loopStep s inp).1.drop 2, o 6 = false ∧ o 7 = false := by
  have hwt : (scannedNeeds s inp.t1).waterTime = (scannedPlant s).waterTime := rfl
  have hsr : sessionResult s inp = some (true, elapsedTime t inp.waterStart, t) := by
    have hpre2 : ∀ tb ∈ pre,
        elapsedTime tb.1 inp.waterStart < (scannedNeeds s inp.t1).waterTime ∧
        tb.2 = false ∧ elapsedTime tb.1 inp.waterStart < ERR_WATER_TIME := by
      intro tb htb
      rw [hwt]
      exact hpre tb htb
    have htgt2 : elapsedTime t inp.waterStart < (scannedNeeds s inp.t1).waterTime := by
      rw [hwt]
      exact htgt
    unfold sessionResult
    rw [hticks, wateringLoop_skip hpre2, wateringLoop_fault_at htgt2 hceil]
  have hcond : (s.watering || inp.buttonPressed) = true := by
    rw [hInv.watFalse, hbtn]
    rfl
  obtain ⟨a, b, c, hP⟩ := plants_shape hInv.pumpPins
  have hpins := hInv.pumpPins
  rw [hP] at hpins
  simp only [List.map_cons, List.map_nil, List.cons.injEq, and_true] at hpins
  obtain ⟨ha, hb, hc⟩ := hpins
  have h3 := pumpOff_off hInv inp.t1
  rw [loopStep_session_eq s inp true (elapsedTime t inp.waterStart) t hcond hsr]
  set s3 : SysState := { s with
    currentPlant := { scannedNeeds s inp.t1 with
                      lastWatered := inp.waterStart,
                      lastWateredFor := elapsedTime t inp.waterStart },
    watering := false, error := s.error || true,
    waterStartTime := inp.waterStart,
    outputs := pumpOff s inp.t1 } with hs3def
  have herr3 : s3.error = true := by
    rw [hs3def]
    simp
  have hoe6 : errOut s3 6 = false := by
    unfold errOut errorLED
    rw [dWrite_ne (by norm_num)]
    exact h3.1
  have hoe7 : errOut s3 7 = false := by
    unfold errOut errorLED
    rw [dWrite_ne (by norm_num)]
    exact h3.2
  rw [finishStep_err_none_eq _ _ _ _ herr3 (errorWait_eq_none hnores)]
  refine ⟨hsr, rfl, ?_⟩
  intro o ho
  simp only [List.cons_append, List.nil_append, List.drop_succ_cons, List.drop_zero,
    List.mem_cons] at ho
  rcases ho with rfl | rfl | ho
  · exact h3
  · exact ⟨hoe6, hoe7⟩
  · have hpl : s3.plants = [a, b, c] := hP
    rw [hpl] at ho
    exact pumpsOffTrace_off ha hb hc hoe6 hoe7 o ho

/-- C1 witness: a concrete fault session (a plant whose target duration
400 exceeds the ceiling; one tick at measured elapsed 300, button
released, no reset press) leaves the cycle latched in ERROR. -/
theorem C1_ceiling_fault_enters_error_witness :
    (loopStep faultState faultInput).2 = none :=
  (C1_ceiling_fault_enters_error faultState faultInput [] [] 300000
    ⟨rfl, rfl, by decide, rfl, rfl, rfl, rfl⟩
    rfl rfl (by simp) (by decide) (by decide) (by decide)).2.1

/-- C6: a session that ends in a fault stop leaves the Plant Registry —
in particular the watered plant's `lastWatered` and `lastWateredFor`
fields — exactly as it was.  (The session-finish code does assign those
fields, on fault stops just as on normal stops, but only to the by-value
working copy `currentPlant`, which is discarded; the registry entry is
untouched, so the plant's dryness clock is not reset by the failed
session.) -/
theorem C6_fault_stop_registry_unchanged
    (s : SysState) (inp : LoopInput) (w : Int) (lastT : Nat)
    (hbtn : inp.buttonPressed = true)
    (hfault : sessionResult s inp = some (true, w, lastT))
    (hreset : errorWait inp.resets = some ()) :
    ((loopStep s inp).2.map (fun s2 => s2.plants)) = some s.plants ∧
    ((loopStep s inp).2.map (fun s2 =>
      ((s2.plants.getD s.plantCounter nullPlant).lastWatered,
       (s2.plants.getD s.plantCounter nullPlant).lastWateredFor))) =
      some ((scannedPlant s).lastWatered, (scannedPlant s).lastWateredFor) := by
  have hcond : (s.watering || inp.buttonPressed) = true := by
    rw [hbtn]
    simp
  rw [loopStep_session_eq s inp true w lastT hcond hfault]
  set s3 : SysState := { s with
    currentPlant := { scannedNeeds s inp.t1 with
                      lastWatered := inp.waterStart, lastWateredFor := w },
    watering := false, error := s.error || true,
    waterStartTime := inp.waterStart,
    outputs := pumpOff s inp.t1 } with hs3def
  have herr3 : s3.error = true := by
    rw [hs3def]
    simp
  rw [finishStep_err_some_eq _ _ _ _ herr3 hreset]
  exact ⟨rfl, rfl⟩

/-- C6 witness: the concrete fault session with a reset press supplied;
the registry after the cycle equals the registry before it. -/
theorem C6_fault_stop_registry_unchanged_witness :
    ((loopStep faultState faultInput2).2.map (fun s2 => s2.plants)) =
      some faultState.plants :=
  (C6_fault_stop_registry_unchanged faultState faultInput2 300 300000
    rfl (by decide) rfl).1

/-- C5: the ERROR busy-wait exits only on a reset press.  (1) If every
reset sample reads unpressed, the wait never exits.  (2) If a press is
eventually sampled, the wait exits.  (3) At the loop level: when the
error handler is entered with the error flag set and no reset press is
supplied, the cycle never completes — the system stays latched in ERROR.
(4) When a press is supplied, the cycle completes with the error flag
cleared. -/
theorem C5_error_exits_only_on_reset :
    (∀ rs : List Bool, (∀ r ∈ rs, r = false) → errorWait rs = none) ∧
    (∀ pre post : List Bool, (∀ r ∈ pre, r = false) →
      errorWait (pre ++ true :: post) = some ()) ∧
    (∀ (s : SysState) (curT : Nat) (tr : List (Int → Bool)) (rs : List Bool),
      s.error = true → (∀ r ∈ rs, r = false) → (finishStep s curT tr rs).2 = none) ∧
    (∀ (s : SysState) (curT : Nat) (tr : List (Int → Bool)) (rs : List Bool),
      s.error = true → errorWait rs = some () →
      ((finishStep s curT tr rs).2.map (fun s2 => s2.error)) = some false) := by
  refine ⟨fun rs h => errorWait_eq_none h,
          fun pre post h => errorWait_press h, ?_, ?_⟩
  · intro s curT tr rs hs hrs
    simp [finishStep, hs, errorWait_eq_none hrs]
  · intro s curT tr rs hs hew
    simp [finishStep, hs, hew]

/-- C5 witness: with two unpressed samples the wait does not exit and an
errored cycle does not complete; the general theorem applied at concrete
inputs. -/
theorem C5_error_exits_only_on_reset_witness :
    errorWait [false, false] = none ∧
    (finishStep { initialState 0 0 0 0 with error := true } 0 [] [false]).2 = none ∧
    ((finishStep { initialState 0 0 0 0 with error := true } 0 [] [true]).2.map
      (fun s2 => s2.error)) = some false :=
  ⟨C5_error_exits_only_on_reset.1 [false, false] (by decide),
   C5_error_exits_only_on_reset.2.2.1 _ 0 [] [false] rfl (by decide),
   C5_error_exits_only_on_reset.2.2.2 _ 0 [] [true] rfl rfl⟩

end Watering
